import Mathlib

/-!
Verification development for the metrics aggregation and scoring engine
of the Clinical Insight Platform (backend/analytics.py).

Python floats are modelled as exact rationals; Python `round(x, 2)`
(round-half-to-even) is modelled by `pyRound`/`round2`; Python dicts of
parsed spreadsheet rows are association lists of string keys to a tagged
scalar `Value`; Python `int(...)` coercion is `Value.toInt?` returning
`Option Int` (a `none` models the raised `ValueError`/`TypeError`).
-/

namespace Clinical

/-- Scalar held in one field of a parsed spreadsheet row: a string cell,
an integer cell, or a Python `None`. -/
inductive Value where
  | str (s : String)
  | int (z : Int)
  | null
deriving DecidableEq, Repr

/-- One parsed row: a mapping from field name to scalar value. -/
def Rec := List (String × Value)

instance : DecidableEq Rec := by unfold Rec; infer_instance

/-- Python truthiness of a scalar: empty string, 0 and None are falsy. -/
def Value.truthy : Value → Bool
  | .str s => s ≠ ""
  | .int z => z ≠ 0
  | .null => false

/-- Accumulating decimal-digit parser over a character list; `none` on
the first non-digit character. -/
def digitsToNat : List Char → Nat → Option Nat
  | [], acc => some acc
  | c :: cs, acc =>
      if c.isDigit then digitsToNat cs (acc * 10 + (c.toNat - 48)) else Option.none

/-- Parse of a decimal integer literal with an optional sign, modelling
Python `int(...)` applied to a string; `none` models the raised
`ValueError` on non-numeric text. -/
def parseInt? (s : String) : Option Int :=
  match s.data with
  | [] => Option.none
  | '-' :: cs => if cs = [] then Option.none else (digitsToNat cs 0).map (fun n => -(n : Int))
  | '+' :: cs => if cs = [] then Option.none else (digitsToNat cs 0).map (fun n => (n : Int))
  | cs => (digitsToNat cs 0).map (fun n => (n : Int))

/-- Python `int(v)`: integer passes through, a string is parsed as a
decimal integer, anything else (None, non-numeric text) raises, which is
modelled by `none`. -/
def Value.toInt? : Value → Option Int
  | .int z => some z
  | .str s => parseInt? s
  | .null => Option.none

/-- Python `str(v)`. -/
def Value.pyStr : Value → String
  | .str s => s
  | .int z => toString z
  | .null => "None"

/-- Embedding of `record.get(k, d)`: the stored value when the key is present (even a
falsy one), otherwise the default. -/
def getD (r : Rec) (k : String) (d : Value) : Value :=
  (List.lookup k r).getD d

/-- Embedding of `record.get(k1, record.get(k2, d))`. -/
def get2 (r : Rec) (k1 k2 : String) (d : Value) : Value :=
  ((List.lookup k1 r).orElse (fun _ => List.lookup k2 r)).getD d

/-- Embedding of `record.get(k1, record.get(k2, record.get(k3, d)))`. -/
def get3 (r : Rec) (k1 k2 k3 : String) (d : Value) : Value :=
  ((List.lookup k1 r).orElse (fun _ =>
    (List.lookup k2 r).orElse (fun _ => List.lookup k3 r))).getD d

/-- Python `round` to an integer: nearest integer, ties to even. -/
def pyRound (x : ℚ) : Int :=
  let f := ⌊x⌋
  if x - f < 1/2 then f
  else if x - f > 1/2 then f + 1
  else if f % 2 = 0 then f else f + 1

/-- Python `round(x, 2)`. -/
def round2 (x : ℚ) : ℚ := (pyRound (100 * x) : ℚ) / 100

/-- Embedding of `calculate_percentage`: 100.0 on a zero denominator, else the ratio
as a percentage rounded to 2 decimals. -/
def calculate_percentage (numerator denominator : Int) : ℚ :=
  if denominator = 0 then 100
  else round2 (((numerator : ℚ) / (denominator : ℚ)) * 100)

/-- Embedding of `calculate_visit_completeness`. -/
def calculate_visit_completeness (edc_data visit_data : List Rec) : ℚ :=
  if edc_data = [] then 0
  else
    let total_expected : Int := edc_data.length
    let missing_visits : Int := visit_data.length
    let completed := max 0 (total_expected - missing_visits)
    calculate_percentage completed total_expected

/-- The three query fields of one record, each as
`int(v) if v else 0`; `none` when any of the three coercions raises,
in which case the `except` clause skips the whole record. -/
def queryRecordParse (record : Rec) : Option (Int × Int × Int) := do
  let open_queries := get2 record "Open Queries" "OpenQueries" (.int 0)
  let answered_queries := get2 record "Answered Queries" "AnsweredQueries" (.int 0)
  let closed_queries := get2 record "Closed Queries" "ClosedQueries" (.int 0)
  let o ← if open_queries.truthy then open_queries.toInt? else some 0
  let a ← if answered_queries.truthy then answered_queries.toInt? else some 0
  let c ← if closed_queries.truthy then closed_queries.toInt? else some 0
  pure (o, a, c)

/-- Loop body of `calculate_query_resolution_rate`: on parse success add
open+answered+closed to the total and closed to the resolved count; on
failure `continue` leaves the accumulator unchanged. -/
def queryStep (acc : Int × Int) (record : Rec) : Int × Int :=
  match queryRecordParse record with
  | some (o, a, c) => (acc.1 + o + a + c, acc.2 + c)
  | Option.none => acc

/-- Embedding of `calculate_query_resolution_rate`. -/
def calculate_query_resolution_rate (edc_data : List Rec) : ℚ :=
  if edc_data = [] then 0
  else
    let r := edc_data.foldl queryStep (0, 0)
    calculate_percentage r.2 r.1

/-- Loop body of `calculate_sdv_completion`: the total-pages increment
executes before the verified-pages coercion, so a record whose verified
value fails to parse still contributes its total. -/
def sdvStep (acc : Int × Int) (record : Rec) : Int × Int :=
  let total := get2 record "Total Pages" "TotalPages" (.int 0)
  let verified := get3 record "SDV Completed" "SDVCompleted" "Verified Pages" (.int 0)
  match (if total.truthy then total.toInt? else some 0) with
  | Option.none => acc
  | some t =>
    match (if verified.truthy then verified.toInt? else some 0) with
    | Option.none => (acc.1 + t, acc.2)
    | some v => (acc.1 + t, acc.2 + v)

/-- Embedding of `calculate_sdv_completion`. -/
def calculate_sdv_completion (edc_data : List Rec) : ℚ :=
  if edc_data = [] then 0
  else
    let r := edc_data.foldl sdvStep (0, 0)
    calculate_percentage r.2 r.1

/-- Embedding of `calculate_coding_completeness`; `total_terms` defaults to `None`
at the call in `calculate_dqi`, and Python `if total_terms:` is false
both for `None` and for 0. -/
def calculate_coding_completeness (coding_issues : Int) (total_terms : Option Int) : ℚ :=
  if total_terms.getD 0 ≠ 0 then
    let t := total_terms.getD 0
    calculate_percentage (max 0 (t - coding_issues)) t
  else
    let estimated_total := max 100 (coding_issues * 2)
    calculate_percentage (max 0 (estimated_total - coding_issues)) estimated_total

/-- Loop body of `calculate_form_signature_rate`; the default for the
total-forms field is 1, for signed forms 0. -/
def sigStep (acc : Int × Int) (record : Rec) : Int × Int :=
  let total := get2 record "Total Forms" "TotalForms" (.int 1)
  let signed := get3 record "Signed Forms" "SignedForms" "eSigned" (.int 0)
  match (if total.truthy then total.toInt? else some 0) with
  | Option.none => acc
  | some t =>
    match (if signed.truthy then signed.toInt? else some 0) with
    | Option.none => (acc.1 + t, acc.2)
    | some v => (acc.1 + t, acc.2 + v)

/-- Summed (total_forms, signed_forms) counters of
`calculate_form_signature_rate`. -/
def formCounts (edc_data : List Rec) : Int × Int :=
  edc_data.foldl sigStep (0, 0)

/-- Embedding of `calculate_form_signature_rate`: 75.0 when no form data summed up. -/
def calculate_form_signature_rate (edc_data : List Rec) : ℚ :=
  if edc_data = [] then 0
  else
    let r := formCounts edc_data
    if r.1 = 0 then 75
    else calculate_percentage r.2 r.1

/-- Subject identifier of a record via the alias chain
Subject / SubjectID / Subject ID, as `calculate_clean_patient_status`
resolves it: a falsy value (empty string, 0, None) leaves the record
without an identifier; a truthy value is converted with `str(...)`. -/
def subjectId? (record : Rec) : Option String :=
  let subject := get3 record "Subject" "SubjectID" "Subject ID" (.str "")
  if subject.truthy then some subject.pyStr else Option.none

/-- The set of subjects appearing in the missing-pages records,
via the same alias chain and `str(...)` conversion. -/
def subjectsWithIssues (missing_pages_data : List Rec) : List String :=
  missing_pages_data.filterMap subjectId?

/-- The value passed to `int(...)` for the open-queries field:
`open_queries or 0` yields the stored value when truthy, else 0. -/
def openQueriesVal (record : Rec) : Value :=
  let open_queries := get2 record "Open Queries" "OpenQueries" (.int 0)
  if open_queries.truthy then open_queries else .int 0

/-- Embedding of `has_queries` in `calculate_clean_patient_status`:
`int(open_queries or 0) > 0`, with the `except` branch yielding False. -/
def hasOpenQueries (record : Rec) : Bool :=
  match (openQueriesVal record).toInt? with
  | some z => decide (z > 0)
  | Option.none => false

/-- Selector for the clean side of the partition: the subject string of
a record with a resolvable identifier, no open queries and no
missing-pages entry. -/
def cleanSel (issues : List String) (record : Rec) : Option String :=
  match subjectId? record with
  | some s =>
      if hasOpenQueries record || issues.contains s then Option.none else some s
  | Option.none => Option.none

/-- Selector for the dirty side of the partition. -/
def dirtySel (issues : List String) (record : Rec) : Option String :=
  match subjectId? record with
  | some s =>
      if hasOpenQueries record || issues.contains s then some s else Option.none
  | Option.none => Option.none

/-- Result record of `calculate_clean_patient_status`. -/
structure CleanStatus where
  total : Nat
  clean : Nat
  dirty : Nat
  clean_percentage : ℚ
  clean_subjects : List String
  dirty_subjects : List String
deriving DecidableEq, Repr

/-- Embedding of `calculate_clean_patient_status`. -/
def calculate_clean_patient_status (edc_data missing_pages_data : List Rec) : CleanStatus :=
  if edc_data = [] then ⟨0, 0, 0, 0, [], []⟩
  else
    let issues := subjectsWithIssues missing_pages_data
    let clean_subjects := edc_data.filterMap (cleanSel issues)
    let dirty_subjects := edc_data.filterMap (dirtySel issues)
    let total := clean_subjects.length + dirty_subjects.length
    ⟨total, clean_subjects.length, dirty_subjects.length,
     if total > 0 then calculate_percentage clean_subjects.length total else 0,
     clean_subjects.take 10, dirty_subjects.take 10⟩

/-- Embedding of `DQIWeights`: configurable weights for the DQI calculation. -/
structure DQIWeights where
  visit_completeness : ℚ
  query_resolution : ℚ
  sdv_status : ℚ
  coding_completeness : ℚ
  form_signatures : ℚ
deriving DecidableEq, Repr

/-- Embedding of `DEFAULT_WEIGHTS = DQIWeights()`. -/
def DEFAULT_WEIGHTS : DQIWeights := ⟨3/10, 1/4, 1/5, 3/20, 1/10⟩

/-- Embedding of `DQIWeights.validate`: the five weights sum to 1.0 within a strict
tolerance of 0.001. -/
def DQIWeights.validate (w : DQIWeights) : Bool :=
  let total := w.visit_completeness + w.query_resolution +
               w.sdv_status + w.coding_completeness + w.form_signatures
  decide (|total - 1| < 1/1000)

/-- One entry of the components map in a DQI result. -/
structure ComponentScore where
  score : ℚ
  weight : ℚ
deriving DecidableEq, Repr

/-- Result record of `calculate_dqi`. -/
structure DQIResult where
  score : ℚ
  level : String
  visit_completeness : ComponentScore
  query_resolution : ComponentScore
  sdv_status : ComponentScore
  coding_completeness : ComponentScore
  form_signatures : ComponentScore
deriving DecidableEq, Repr

/-- Embedding of `calculate_dqi`; a `none` for `weights` is the Python default and is
replaced by `DEFAULT_WEIGHTS`; no validation of the weights occurs. -/
def calculate_dqi (edc_data visit_data : List Rec)
    (missing_pages coding_issues : Int) (weights : Option DQIWeights) : DQIResult :=
  let w := weights.getD DEFAULT_WEIGHTS
  let visit_score := calculate_visit_completeness edc_data visit_data
  let query_score := calculate_query_resolution_rate edc_data
  let sdv_score := calculate_sdv_completion edc_data
  let coding_score := calculate_coding_completeness coding_issues Option.none
  let signature_score := calculate_form_signature_rate edc_data
  let dqi :=
    w.visit_completeness * visit_score +
    w.query_resolution * query_score +
    w.sdv_status * sdv_score +
    w.coding_completeness * coding_score +
    w.form_signatures * signature_score
  let quality_level :=
    if dqi ≥ 90 then "Excellent"
    else if dqi ≥ 75 then "Good"
    else if dqi ≥ 60 then "Fair"
    else if dqi ≥ 40 then "Poor"
    else "Critical"
  ⟨round2 dqi, quality_level,
   ⟨round2 visit_score, w.visit_completeness⟩,
   ⟨round2 query_score, w.query_resolution⟩,
   ⟨round2 sdv_score, w.sdv_status⟩,
   ⟨round2 coding_score, w.coding_completeness⟩,
   ⟨round2 signature_score, w.form_signatures⟩⟩

/-- Result record of `calculate_risk_score`, with the breakdown fields
inlined. -/
structure RiskResult where
  raw_score : ℚ
  normalized_score : ℚ
  level : String
  sae_contribution : ℚ
  lab_contribution : ℚ
  coding_contribution : ℚ
  missing_pages_contribution : ℚ
  overdue_visits_contribution : ℚ
deriving DecidableEq, Repr

/-- Embedding of `calculate_risk_score`. -/
def calculate_risk_score (sae_issues missing_pages lab_issues overdue_visits coding_issues : Int) : RiskResult :=
  let weighted_score : ℚ :=
    (sae_issues : ℚ) * 5 + (lab_issues : ℚ) * 3 + (coding_issues : ℚ) * 2 +
    (missing_pages : ℚ) * (3/2) + (overdue_visits : ℚ) * 1
  let normalized := min 100 (weighted_score / 5)
  let level :=
    if weighted_score > 300 then "Critical"
    else if weighted_score > 150 then "High"
    else if weighted_score > 50 then "Medium"
    else "Low"
  ⟨round2 weighted_score, round2 normalized, level,
   round2 ((sae_issues : ℚ) * 5), round2 ((lab_issues : ℚ) * 3),
   round2 ((coding_issues : ℚ) * 2), round2 ((missing_pages : ℚ) * (3/2)),
   round2 ((overdue_visits : ℚ) * 1)⟩

/-- One recommendation entry. -/
structure Recommendation where
  priority : String
  category : String
  action : String
  owner : String
  deadline : String
deriving DecidableEq, Repr

/-- The CRITICAL/Safety entry. -/
def saeRec (sae_issues : Int) : Recommendation :=
  ⟨"CRITICAL", "Safety",
   "Review " ++ toString sae_issues ++ " unresolved SAE cases immediately",
   "Safety Team", "24 hours"⟩

/-- The HIGH/Lab Data entry. -/
def labRec (lab_issues : Int) : Recommendation :=
  ⟨"HIGH", "Lab Data",
   "Reconcile " ++ toString lab_issues ++ " lab value discrepancies with central lab",
   "Data Manager", "3 days"⟩

/-- The HIGH/Operations entry. -/
def overdueRec (overdue_visits : Int) : Recommendation :=
  ⟨"HIGH", "Operations",
   "Schedule CRA follow-up for " ++ toString overdue_visits ++ " overdue visits",
   "CRA Lead", "5 days"⟩

/-- The MEDIUM/Data Entry entry. -/
def missingRec : Recommendation :=
  ⟨"MEDIUM", "Data Entry",
   "Generate missing page report and assign to sites",
   "Site Monitor", "1 week"⟩

/-- The MEDIUM/Coding entry. -/
def codingRec (coding_issues : Int) : Recommendation :=
  ⟨"MEDIUM", "Coding",
   "Clear " ++ toString coding_issues ++ " term coding backlog before next cut-off",
   "Medical Coder", "2 weeks"⟩

/-- The MEDIUM/Quality entry. -/
def dqiRec (dqi_score : ℚ) : Recommendation :=
  ⟨"MEDIUM", "Quality",
   "DQI at " ++ toString dqi_score ++ "% - schedule quality improvement review",
   "QA Lead", "1 week"⟩

/-- The synthesized INFO/Status entry. -/
def statusRec : Recommendation :=
  ⟨"INFO", "Status",
   "Study data quality is excellent - maintain current processes",
   "Study Team", "N/A"⟩

/-- Embedding of `generate_recommendations`: sequential threshold checks append
entries in source order; an empty result is replaced by the INFO/Status
entry. `risk_level` is accepted but not consulted. -/
def generate_recommendations (risk_level : String)
    (sae_issues missing_pages lab_issues overdue_visits coding_issues : Int)
    (dqi_score : ℚ) : List Recommendation :=
  let recommendations :=
    (if sae_issues > 0 then [saeRec sae_issues] else []) ++
    (if lab_issues > 10 then [labRec lab_issues] else []) ++
    (if overdue_visits > 15 then [overdueRec overdue_visits] else []) ++
    (if missing_pages > 20 then [missingRec] else []) ++
    (if coding_issues > 30 then [codingRec coding_issues] else []) ++
    (if dqi_score < 70 then [dqiRec dqi_score] else [])
  if recommendations = [] then [statusRec] else recommendations

/-- The recommendation rule table of the specification: each row pairs
its firing condition with its entry, in the fixed documented order. -/
def recommendationTable (sae_issues missing_pages lab_issues overdue_visits coding_issues : Int)
    (dqi_score : ℚ) : List (Bool × Recommendation) :=
  [(decide (sae_issues > 0), saeRec sae_issues),
   (decide (lab_issues > 10), labRec lab_issues),
   (decide (overdue_visits > 15), overdueRec overdue_visits),
   (decide (missing_pages > 20), missingRec),
   (decide (coding_issues > 30), codingRec coding_issues),
   (decide (dqi_score < 70), dqiRec dqi_score)]

/-- Weighted sum of the five component scores reported in the
components map of a DQI result, each score times its reported weight. -/
def componentsWeightedSum (r : DQIResult) : ℚ :=
  r.visit_completeness.weight * r.visit_completeness.score +
  r.query_resolution.weight * r.query_resolution.score +
  r.sdv_status.weight * r.sdv_status.score +
  r.coding_completeness.weight * r.coding_completeness.score +
  r.form_signatures.weight * r.form_signatures.score

/-- Modelled from the spec words for comparison with the source (claim
C6), loop body: on parse failure a single field contributes 0 to the
sums while the other fields of the same record still contribute. -/
def fieldLocalStep (acc : Int × Int) (record : Rec) : Int × Int :=
  let ov := get2 record "Open Queries" "OpenQueries" (.int 0)
  let av := get2 record "Answered Queries" "AnsweredQueries" (.int 0)
  let cv := get2 record "Closed Queries" "ClosedQueries" (.int 0)
  let o := (if ov.truthy then ov.toInt? else some 0).getD 0
  let a := (if av.truthy then av.toInt? else some 0).getD 0
  let c := (if cv.truthy then cv.toInt? else some 0).getD 0
  (acc.1 + o + a + c, acc.2 + c)

/-- Modelled from the spec words for comparison with the source (claim
C6): query resolution rate under per-field zero-contribution semantics
for unparsable values. -/
def queryResolutionFieldLocal (edc_data : List Rec) : ℚ :=
  if edc_data = [] then 0
  else
    let r := edc_data.foldl fieldLocalStep (0, 0)
    calculate_percentage r.2 r.1

lemma pyRound_intCast (z : Int) : pyRound (z : ℚ) = z := by
  unfold pyRound
  rw [Int.floor_intCast]
  simp only [sub_self]
  norm_num

lemma round2_eq_self {x : ℚ} {z : Int} (h : 100 * x = z) : round2 x = x := by
  unfold round2
  rw [h, pyRound_intCast, ← h]
  ring

lemma round2_round2 (x : ℚ) : round2 (round2 x) = round2 x := by
  refine round2_eq_self (z := pyRound (100 * x)) ?_
  unfold round2
  field_simp

lemma round2_percentage (n d : Int) :
    round2 (calculate_percentage n d) = calculate_percentage n d := by
  unfold calculate_percentage
  split
  · exact round2_eq_self (z := 10000) (by norm_num)
  · exact round2_round2 _

lemma round2_zero : round2 0 = 0 :=
  round2_eq_self (z := 0) (by norm_num)

lemma round2_visit (a b : List Rec) :
    round2 (calculate_visit_completeness a b) = calculate_visit_completeness a b := by
  unfold calculate_visit_completeness
  split
  · exact round2_zero
  · exact round2_percentage _ _

lemma round2_query (a : List Rec) :
    round2 (calculate_query_resolution_rate a) = calculate_query_resolution_rate a := by
  unfold calculate_query_resolution_rate
  split
  · exact round2_zero
  · exact round2_percentage _ _

lemma round2_sdv (a : List Rec) :
    round2 (calculate_sdv_completion a) = calculate_sdv_completion a := by
  unfold calculate_sdv_completion
  split
  · exact round2_zero
  · exact round2_percentage _ _

lemma round2_coding (ci : Int) (tt : Option Int) :
    round2 (calculate_coding_completeness ci tt) = calculate_coding_completeness ci tt := by
  unfold calculate_coding_completeness
  split
  · exact round2_percentage _ _
  · exact round2_percentage _ _

lemma round2_sig (a : List Rec) :
    round2 (calculate_form_signature_rate a) = calculate_form_signature_rate a := by
  unfold calculate_form_signature_rate
  split
  · exact round2_zero
  · dsimp only
    split
    · exact round2_eq_self (z := 7500) (by norm_num)
    · exact round2_percentage _ _

lemma round2_min100 {x : ℚ} {z : Int} (h : 100 * x = z) :
    round2 (min 100 x) = min 100 x := by
  rcases le_total x 100 with h1 | h1
  · rw [min_eq_right h1]
    exact round2_eq_self h
  · rw [min_eq_left h1]
    exact round2_eq_self (z := 10000) (by norm_num)


lemma percentage_zero_den (n : Int) : calculate_percentage n 0 = 100 := by
  unfold calculate_percentage
  rw [if_pos rfl]

lemma percentage_eval {n d : Int} (hd : d ≠ 0) {y : ℚ} {z : Int}
    (h : ((n : ℚ) / (d : ℚ)) * 100 = y) (hz : 100 * y = z) :
    calculate_percentage n d = y := by
  unfold calculate_percentage
  rw [if_neg hd, h]
  exact round2_eq_self hz

lemma visit_eval {edc vd : List Rec} (h : edc ≠ []) :
    calculate_visit_completeness edc vd =
      calculate_percentage (max 0 ((edc.length : Int) - (vd.length : Int))) edc.length := by
  unfold calculate_visit_completeness
  rw [if_neg h]

lemma query_eval {edc : List Rec} (h : edc ≠ []) {p : Int × Int}
    (hp : edc.foldl queryStep (0, 0) = p) :
    calculate_query_resolution_rate edc = calculate_percentage p.2 p.1 := by
  unfold calculate_query_resolution_rate
  rw [if_neg h]
  dsimp only
  rw [hp]

lemma sdv_eval {edc : List Rec} (h : edc ≠ []) {p : Int × Int}
    (hp : edc.foldl sdvStep (0, 0) = p) :
    calculate_sdv_completion edc = calculate_percentage p.2 p.1 := by
  unfold calculate_sdv_completion
  rw [if_neg h]
  dsimp only
  rw [hp]

lemma sig_eval {edc : List Rec} (h : edc ≠ []) {p : Int × Int}
    (hp : formCounts edc = p) (hz : ¬ p.1 = 0) :
    calculate_form_signature_rate edc = calculate_percentage p.2 p.1 := by
  unfold calculate_form_signature_rate
  rw [if_neg h]
  dsimp only
  rw [hp, if_neg hz]

lemma coding_none_eval (ci : Int) :
    calculate_coding_completeness ci Option.none =
      calculate_percentage (max 0 (max 100 (ci * 2) - ci)) (max 100 (ci * 2)) := by
  unfold calculate_coding_completeness
  rw [if_neg (by simp)]

lemma coding_zero : calculate_coding_completeness 0 Option.none = 100 := by
  rw [coding_none_eval]
  norm_num
  exact percentage_eval (by norm_num) (by norm_num) (z := 10000) (by norm_num)

lemma calculate_risk_score_eq (sae mp lab ovd ci : Int) :
    calculate_risk_score sae mp lab ovd ci =
      ⟨(sae : ℚ) * 5 + (lab : ℚ) * 3 + (ci : ℚ) * 2 + (mp : ℚ) * (3/2) + (ovd : ℚ) * 1,
       min 100 (((sae : ℚ) * 5 + (lab : ℚ) * 3 + (ci : ℚ) * 2 + (mp : ℚ) * (3/2) + (ovd : ℚ) * 1) / 5),
       (if (sae : ℚ) * 5 + (lab : ℚ) * 3 + (ci : ℚ) * 2 + (mp : ℚ) * (3/2) + (ovd : ℚ) * 1 > 300 then "Critical"
        else if (sae : ℚ) * 5 + (lab : ℚ) * 3 + (ci : ℚ) * 2 + (mp : ℚ) * (3/2) + (ovd : ℚ) * 1 > 150 then "High"
        else if (sae : ℚ) * 5 + (lab : ℚ) * 3 + (ci : ℚ) * 2 + (mp : ℚ) * (3/2) + (ovd : ℚ) * 1 > 50 then "Medium"
        else "Low"),
       (sae : ℚ) * 5, (lab : ℚ) * 3, (ci : ℚ) * 2, (mp : ℚ) * (3/2), (ovd : ℚ) * 1⟩ := by
  unfold calculate_risk_score
  dsimp only
  simp only [RiskResult.mk.injEq]
  refine ⟨?_, ?_, trivial, ?_, ?_, ?_, ?_, ?_⟩
  · exact round2_eq_self (z := sae * 500 + lab * 300 + ci * 200 + mp * 150 + ovd * 100)
      (by push_cast; ring)
  · exact round2_min100 (z := sae * 100 + lab * 60 + ci * 40 + mp * 30 + ovd * 20)
      (by push_cast; ring)
  · exact round2_eq_self (z := sae * 500) (by push_cast; ring)
  · exact round2_eq_self (z := lab * 300) (by push_cast; ring)
  · exact round2_eq_self (z := ci * 200) (by push_cast; ring)
  · exact round2_eq_self (z := mp * 150) (by push_cast; ring)
  · exact round2_eq_self (z := ovd * 100) (by push_cast; ring)

/-- C2: for all non-negative integer inputs, `calculate_risk_score`
returns raw_score = sae*5 + lab*3 + coding*2 + missing_pages*1.5 +
overdue_visits*1, normalized_score = min(100, raw_score/5), and a level
determined solely by the raw score: Critical iff raw > 300, High iff
150 < raw <= 300, Medium iff 50 < raw <= 150, Low iff raw <= 50;
sae=61 alone gives raw 305, level Critical, normalized 61, and all-zero
inputs give raw 0, level Low, normalized 0. -/
theorem risk_score_spec :
    (∀ sae mp lab ovd ci : ℕ,
      (calculate_risk_score sae mp lab ovd ci).raw_score =
        (sae : ℚ) * 5 + (lab : ℚ) * 3 + (ci : ℚ) * 2 + (mp : ℚ) * (3/2) + (ovd : ℚ) * 1
      ∧ (calculate_risk_score sae mp lab ovd ci).normalized_score =
          min 100 ((calculate_risk_score sae mp lab ovd ci).raw_score / 5)
      ∧ ((calculate_risk_score sae mp lab ovd ci).level = "Critical" ↔
          300 < (calculate_risk_score sae mp lab ovd ci).raw_score)
      ∧ ((calculate_risk_score sae mp lab ovd ci).level = "High" ↔
          (150 < (calculate_risk_score sae mp lab ovd ci).raw_score ∧
           (calculate_risk_score sae mp lab ovd ci).raw_score ≤ 300))
      ∧ ((calculate_risk_score sae mp lab ovd ci).level = "Medium" ↔
          (50 < (calculate_risk_score sae mp lab ovd ci).raw_score ∧
           (calculate_risk_score sae mp lab ovd ci).raw_score ≤ 150))
      ∧ ((calculate_risk_score sae mp lab ovd ci).level = "Low" ↔
          (calculate_risk_score sae mp lab ovd ci).raw_score ≤ 50))
    ∧ calculate_risk_score 61 0 0 0 0 = ⟨305, 61, "Critical", 305, 0, 0, 0, 0⟩
    ∧ calculate_risk_score 0 0 0 0 0 = ⟨0, 0, "Low", 0, 0, 0, 0, 0⟩ := by
  refine ⟨?_, ?_, ?_⟩
  · intro sae mp lab ovd ci
    rw [calculate_risk_score_eq]
    dsimp only
    refine ⟨rfl, rfl, ?_, ?_, ?_, ?_⟩ <;> split_ifs with h1 h2 h3
    · exact iff_of_true rfl h1
    · exact iff_of_false (by decide) h1
    · exact iff_of_false (by decide) h1
    · exact iff_of_false (by decide) h1
    · exact iff_of_false (by decide) (fun hc => absurd h1 (not_lt.mpr hc.2))
    · exact iff_of_true rfl ⟨h2, not_lt.mp h1⟩
    · exact iff_of_false (by decide) (fun hc => h2 hc.1)
    · exact iff_of_false (by decide) (fun hc => h2 hc.1)
    · exact iff_of_false (by decide)
        (fun hc => absurd h1 (not_lt.mpr (hc.2.trans (by norm_num))))
    · exact iff_of_false (by decide) (fun hc => absurd h2 (not_lt.mpr hc.2))
    · exact iff_of_true rfl ⟨h3, not_lt.mp h2⟩
    · exact iff_of_false (by decide) (fun hc => h3 hc.1)
    · exact iff_of_false (by decide)
        (fun hc => absurd h1 (not_lt.mpr (hc.trans (by norm_num))))
    · exact iff_of_false (by decide)
        (fun hc => absurd h2 (not_lt.mpr (hc.trans (by norm_num))))
    · exact iff_of_false (by decide) (fun hc => absurd h3 (not_lt.mpr hc))
    · exact iff_of_true rfl (not_lt.mp h3)
  · rw [calculate_risk_score_eq]
    simp only [RiskResult.mk.injEq]
    norm_num
  · rw [calculate_risk_score_eq]
    simp only [RiskResult.mk.injEq]
    norm_num

/-- C3: a non-empty record list whose summed total of forms is 0 makes
`calculate_form_signature_rate` return the conservative default 75.0
instead of 100.0. -/
theorem form_signature_default (edc_data : List Rec)
    (h1 : edc_data ≠ []) (h2 : (formCounts edc_data).1 = 0) :
    calculate_form_signature_rate edc_data = 75 := by
  unfold calculate_form_signature_rate
  rw [if_neg h1]
  dsimp only
  rw [if_pos h2]

/-- Witness for C3 at a one-record list carrying an explicit zero form
count. -/
theorem form_signature_default_witness :
    ([[("Total Forms", Value.str "0")]] : List Rec) ≠ []
    ∧ (formCounts [[("Total Forms", Value.str "0")]]).1 = 0
    ∧ calculate_form_signature_rate [[("Total Forms", Value.str "0")]] = 75 :=
  ⟨by decide, by decide,
   form_signature_default [[("Total Forms", Value.str "0")]] (by decide) (by decide)⟩

lemma calculate_dqi_eval (edc vd : List Rec) (mp ci : Int) (w : Option DQIWeights)
    {v q s c g : ℚ}
    (hv : calculate_visit_completeness edc vd = v)
    (hq : calculate_query_resolution_rate edc = q)
    (hs : calculate_sdv_completion edc = s)
    (hc : calculate_coding_completeness ci Option.none = c)
    (hg : calculate_form_signature_rate edc = g) :
    calculate_dqi edc vd mp ci w =
      ⟨round2 ((w.getD DEFAULT_WEIGHTS).visit_completeness * v +
               (w.getD DEFAULT_WEIGHTS).query_resolution * q +
               (w.getD DEFAULT_WEIGHTS).sdv_status * s +
               (w.getD DEFAULT_WEIGHTS).coding_completeness * c +
               (w.getD DEFAULT_WEIGHTS).form_signatures * g),
       (if (w.getD DEFAULT_WEIGHTS).visit_completeness * v +
           (w.getD DEFAULT_WEIGHTS).query_resolution * q +
           (w.getD DEFAULT_WEIGHTS).sdv_status * s +
           (w.getD DEFAULT_WEIGHTS).coding_completeness * c +
           (w.getD DEFAULT_WEIGHTS).form_signatures * g ≥ 90 then "Excellent"
        else if (w.getD DEFAULT_WEIGHTS).visit_completeness * v +
           (w.getD DEFAULT_WEIGHTS).query_resolution * q +
           (w.getD DEFAULT_WEIGHTS).sdv_status * s +
           (w.getD DEFAULT_WEIGHTS).coding_completeness * c +
           (w.getD DEFAULT_WEIGHTS).form_signatures * g ≥ 75 then "Good"
        else if (w.getD DEFAULT_WEIGHTS).visit_completeness * v +
           (w.getD DEFAULT_WEIGHTS).query_resolution * q +
           (w.getD DEFAULT_WEIGHTS).sdv_status * s +
           (w.getD DEFAULT_WEIGHTS).coding_completeness * c +
           (w.getD DEFAULT_WEIGHTS).form_signatures * g ≥ 60 then "Fair"
        else if (w.getD DEFAULT_WEIGHTS).visit_completeness * v +
           (w.getD DEFAULT_WEIGHTS).query_resolution * q +
           (w.getD DEFAULT_WEIGHTS).sdv_status * s +
           (w.getD DEFAULT_WEIGHTS).coding_completeness * c +
           (w.getD DEFAULT_WEIGHTS).form_signatures * g ≥ 40 then "Poor"
        else "Critical"),
       ⟨round2 v, (w.getD DEFAULT_WEIGHTS).visit_completeness⟩,
       ⟨round2 q, (w.getD DEFAULT_WEIGHTS).query_resolution⟩,
       ⟨round2 s, (w.getD DEFAULT_WEIGHTS).sdv_status⟩,
       ⟨round2 c, (w.getD DEFAULT_WEIGHTS).coding_completeness⟩,
       ⟨round2 g, (w.getD DEFAULT_WEIGHTS).form_signatures⟩⟩ := by
  subst hv hq hs hc hg
  rfl

lemma visit_nil (vd : List Rec) : calculate_visit_completeness [] vd = 0 := rfl

lemma query_nil : calculate_query_resolution_rate [] = 0 := rfl

lemma sdv_nil : calculate_sdv_completion [] = 0 := rfl

lemma sig_nil : calculate_form_signature_rate [] = 0 := rfl

/-- C1: the weight configuration (0.5, 0.5, 0.5, 0.5, 0.5) fails
`DQIWeights.validate`, yet `calculate_dqi` does not reject it: the call
runs to completion and produces the score 50 with level Poor. -/
theorem dqi_accepts_invalid_weights :
    DQIWeights.validate ⟨1/2, 1/2, 1/2, 1/2, 1/2⟩ = false
    ∧ (calculate_dqi [] [] 0 0 (some ⟨1/2, 1/2, 1/2, 1/2, 1/2⟩)).score = 50
    ∧ (calculate_dqi [] [] 0 0 (some ⟨1/2, 1/2, 1/2, 1/2, 1/2⟩)).level = "Poor" := by
  refine ⟨?_, ?_, ?_⟩
  · unfold DQIWeights.validate
    dsimp only
    rw [decide_eq_false_iff_not, abs_lt]
    norm_num
  · rw [calculate_dqi_eval [] [] 0 0 (some ⟨1/2, 1/2, 1/2, 1/2, 1/2⟩)
        (visit_nil []) query_nil sdv_nil coding_zero sig_nil]
    simp only [Option.getD_some]
    have h : ((1:ℚ)/2 * 0 + 1/2 * 0 + 1/2 * 0 + 1/2 * 100 + 1/2 * 0) = 50 := by norm_num
    rw [h]
    exact round2_eq_self (z := 5000) (by norm_num)
  · rw [calculate_dqi_eval [] [] 0 0 (some ⟨1/2, 1/2, 1/2, 1/2, 1/2⟩)
        (visit_nil []) query_nil sdv_nil coding_zero sig_nil]
    simp only [Option.getD_some]
    have h : ((1:ℚ)/2 * 0 + 1/2 * 0 + 1/2 * 0 + 1/2 * 100 + 1/2 * 0) = 50 := by norm_num
    simp only [h]
    norm_num

/-- C4 (failing input): with default weights and a single record whose
verified page count (5) exceeds its total page count (1), the SDV
component score reported by `calculate_dqi` is 500 and the composite
score is 170, both outside [0, 100]. -/
theorem dqi_component_out_of_range :
    (calculate_dqi [[("Total Pages", Value.int 1), ("SDV Completed", Value.int 5)]]
        [] 0 0 Option.none).sdv_status.score = 500
    ∧ (calculate_dqi [[("Total Pages", Value.int 1), ("SDV Completed", Value.int 5)]]
        [] 0 0 Option.none).score = 170
    ∧ ¬ ((calculate_dqi [[("Total Pages", Value.int 1), ("SDV Completed", Value.int 5)]]
        [] 0 0 Option.none).sdv_status.score ≤ 100)
    ∧ ¬ ((calculate_dqi [[("Total Pages", Value.int 1), ("SDV Completed", Value.int 5)]]
        [] 0 0 Option.none).score ≤ 100) := by
  have hv : calculate_visit_completeness
      [[("Total Pages", Value.int 1), ("SDV Completed", Value.int 5)]] [] = 100 := by
    rw [visit_eval (by decide)]
    exact percentage_eval (by decide) (by norm_num) (z := 10000) (by norm_num)
  have hq : calculate_query_resolution_rate
      [[("Total Pages", Value.int 1), ("SDV Completed", Value.int 5)]] = 100 := by
    rw [query_eval (by decide) (p := (0, 0)) (by decide)]
    exact percentage_zero_den 0
  have hs : calculate_sdv_completion
      [[("Total Pages", Value.int 1), ("SDV Completed", Value.int 5)]] = 500 := by
    rw [sdv_eval (by decide) (p := (1, 5)) (by decide)]
    exact percentage_eval (by decide) (by norm_num) (z := 50000) (by norm_num)
  have hg : calculate_form_signature_rate
      [[("Total Pages", Value.int 1), ("SDV Completed", Value.int 5)]] = 0 := by
    rw [sig_eval (by decide) (p := (1, 0)) (by decide) (by decide)]
    exact percentage_eval (by decide) (by norm_num) (z := 0) (by norm_num)
  have hS : (calculate_dqi [[("Total Pages", Value.int 1), ("SDV Completed", Value.int 5)]]
      [] 0 0 Option.none).sdv_status.score = 500 := by
    rw [calculate_dqi_eval _ _ _ _ _ hv hq hs coding_zero hg]
    exact round2_eq_self (z := 50000) (by norm_num)
  have hT : (calculate_dqi [[("Total Pages", Value.int 1), ("SDV Completed", Value.int 5)]]
      [] 0 0 Option.none).score = 170 := by
    rw [calculate_dqi_eval _ _ _ _ _ hv hq hs coding_zero hg]
    simp only [Option.getD_none, DEFAULT_WEIGHTS]
    rw [show (3:ℚ)/10 * 100 + 1/4 * 100 + 1/5 * 500 + 3/20 * 100 + 1/10 * 0 = 170 from by norm_num]
    exact round2_eq_self (z := 17000) (by norm_num)
  refine ⟨hS, hT, by rw [hS]; norm_num, by rw [hT]; norm_num⟩

/-- C8 (counterexample): on an empty record list the coding-completeness
component reported by `calculate_dqi` is 100, not 0: the fifth component
scorer does not yield 0.0 in the empty-input case. -/
theorem coding_component_not_zero_on_empty :
    (calculate_dqi [] [] 0 0 Option.none).coding_completeness.score = 100
    ∧ (calculate_dqi [] [] 0 0 Option.none).coding_completeness.score ≠ 0 := by
  have h : (calculate_dqi [] [] 0 0 Option.none).coding_completeness.score = 100 := by
    rw [calculate_dqi_eval _ _ _ _ _ (visit_nil []) query_nil sdv_nil coding_zero sig_nil]
    exact round2_eq_self (z := 10000) (by norm_num)
  exact ⟨h, by rw [h]; norm_num⟩

/-- C8 (amended): the four record-consuming scorers all return 0.0 on an
empty record list, while coding completeness, which consumes an issue
count rather than records, returns 100.0 at zero issues. -/
theorem empty_input_scores :
    (∀ visit_data, calculate_visit_completeness [] visit_data = 0)
    ∧ calculate_query_resolution_rate [] = 0
    ∧ calculate_sdv_completion [] = 0
    ∧ calculate_form_signature_rate [] = 0
    ∧ calculate_coding_completeness 0 Option.none = 100 :=
  ⟨visit_nil, query_nil, sdv_nil, sig_nil, coding_zero⟩

/-- C5 (amended): the score returned by `calculate_dqi` equals the
weighted sum of the five reported component scores rounded to 2
decimals, and the level is determined by the fixed inclusive thresholds
(90/75/60/40) applied to the unrounded weighted sum, not to the rounded
returned score. -/
theorem dqi_score_level_spec (edc vd : List Rec) (mp ci : Int) (w : Option DQIWeights) :
    (calculate_dqi edc vd mp ci w).score =
      round2 (componentsWeightedSum (calculate_dqi edc vd mp ci w))
    ∧ (calculate_dqi edc vd mp ci w).level =
        (if componentsWeightedSum (calculate_dqi edc vd mp ci w) ≥ 90 then "Excellent"
         else if componentsWeightedSum (calculate_dqi edc vd mp ci w) ≥ 75 then "Good"
         else if componentsWeightedSum (calculate_dqi edc vd mp ci w) ≥ 60 then "Fair"
         else if componentsWeightedSum (calculate_dqi edc vd mp ci w) ≥ 40 then "Poor"
         else "Critical") := by
  unfold calculate_dqi componentsWeightedSum
  dsimp only
  rw [round2_visit, round2_query, round2_sdv, round2_coding, round2_sig]
  exact ⟨rfl, rfl⟩

/-- C5 (counterexample): a weight set passing validation and records for
which the unrounded weighted sum is 89.996: the returned score is
exactly 90.0 after rounding, yet the returned level is Good, not
Excellent. -/
theorem dqi_level_boundary_counterexample :
    DQIWeights.validate ⟨1/10, 0, 0, 0, 22499/25000⟩ = true
    ∧ (calculate_dqi [[("Total Forms", Value.int 1), ("Signed Forms", Value.int 1)]]
        [[("Visit", Value.int 1)]] 0 0 (some ⟨1/10, 0, 0, 0, 22499/25000⟩)).score = 90
    ∧ (calculate_dqi [[("Total Forms", Value.int 1), ("Signed Forms", Value.int 1)]]
        [[("Visit", Value.int 1)]] 0 0 (some ⟨1/10, 0, 0, 0, 22499/25000⟩)).level = "Good" := by
  have hv : calculate_visit_completeness
      [[("Total Forms", Value.int 1), ("Signed Forms", Value.int 1)]]
      [[("Visit", Value.int 1)]] = 0 := by
    rw [visit_eval (by decide)]
    exact percentage_eval (by decide) (by norm_num) (z := 0) (by norm_num)
  have hq : calculate_query_resolution_rate
      [[("Total Forms", Value.int 1), ("Signed Forms", Value.int 1)]] = 100 := by
    rw [query_eval (by decide) (p := (0, 0)) (by decide)]
    exact percentage_zero_den 0
  have hs : calculate_sdv_completion
      [[("Total Forms", Value.int 1), ("Signed Forms", Value.int 1)]] = 100 := by
    rw [sdv_eval (by decide) (p := (0, 0)) (by decide)]
    exact percentage_zero_den 0
  have hg : calculate_form_signature_rate
      [[("Total Forms", Value.int 1), ("Signed Forms", Value.int 1)]] = 100 := by
    rw [sig_eval (by decide) (p := (1, 1)) (by decide) (by decide)]
    exact percentage_eval (by decide) (by norm_num) (z := 10000) (by norm_num)
  have hr : round2 (22499/250 : ℚ) = 90 := by
    unfold round2 pyRound
    have hf : ⌊(100 : ℚ) * (22499/250)⌋ = 8999 := by
      rw [Int.floor_eq_iff]
      constructor <;> norm_num
    dsimp only
    rw [hf, if_neg (by norm_num), if_pos (by norm_num)]
    norm_num
  refine ⟨?_, ?_, ?_⟩
  · unfold DQIWeights.validate
    dsimp only
    rw [decide_eq_true_eq, abs_lt]
    constructor <;> norm_num
  · rw [calculate_dqi_eval _ _ _ _ _ hv hq hs coding_zero hg]
    simp only [Option.getD_some]
    rw [show (1:ℚ)/10 * 0 + 0 * 100 + 0 * 100 + 0 * 100 + 22499/25000 * 100 = 22499/250
        from by norm_num]
    exact hr
  · rw [calculate_dqi_eval _ _ _ _ _ hv hq hs coding_zero hg]
    simp only [Option.getD_some]
    simp only [show (1:ℚ)/10 * 0 + 0 * 100 + 0 * 100 + 0 * 100 + 22499/25000 * 100 = 22499/250
        from by norm_num]
    norm_num

/-- C6 (counterexample): for the two-record list in which the first
record has an unparsable Open Queries value together with a parsable
Closed Queries value of 5, the source scorer skips the first record
entirely and returns 0.0, while the per-field zero-contribution
semantics stated by the spec would return 33.33. -/
theorem query_field_local_counterexample :
    calculate_query_resolution_rate
        [[("Open Queries", Value.str "abc"), ("Closed Queries", Value.str "5")],
         [("Open Queries", Value.str "10")]] = 0
    ∧ queryResolutionFieldLocal
        [[("Open Queries", Value.str "abc"), ("Closed Queries", Value.str "5")],
         [("Open Queries", Value.str "10")]] = 3333/100
    ∧ calculate_query_resolution_rate
        [[("Open Queries", Value.str "abc"), ("Closed Queries", Value.str "5")],
         [("Open Queries", Value.str "10")]]
      ≠ queryResolutionFieldLocal
        [[("Open Queries", Value.str "abc"), ("Closed Queries", Value.str "5")],
         [("Open Queries", Value.str "10")]] := by
  have h1 : calculate_query_resolution_rate
      [[("Open Queries", Value.str "abc"), ("Closed Queries", Value.str "5")],
       [("Open Queries", Value.str "10")]] = 0 := by
    rw [query_eval (by decide) (p := (10, 0)) (by decide)]
    exact percentage_eval (by decide) (by norm_num) (z := 0) (by norm_num)
  have h2 : queryResolutionFieldLocal
      [[("Open Queries", Value.str "abc"), ("Closed Queries", Value.str "5")],
       [("Open Queries", Value.str "10")]] = 3333/100 := by
    unfold queryResolutionFieldLocal
    rw [if_neg (by decide)]
    dsimp only
    rw [show List.foldl fieldLocalStep (0, 0)
        [[("Open Queries", Value.str "abc"), ("Closed Queries", Value.str "5")],
         [("Open Queries", Value.str "10")]] = (15, 5) from by decide]
    unfold calculate_percentage
    rw [if_neg (by decide)]
    rw [show (((5:Int) : ℚ) / ((15:Int) : ℚ)) * 100 = 100/3 from by norm_num]
    unfold round2 pyRound
    have hf : ⌊(100 : ℚ) * (100/3)⌋ = 3333 := by
      rw [Int.floor_eq_iff]
      constructor <;> norm_num
    dsimp only
    rw [hf, if_pos (by norm_num)]
    norm_num
  exact ⟨h1, h2, by rw [h1, h2]; norm_num⟩

/-- C6 (amended): no scorer raises (all are total); in query resolution
a record with any unparsable query field is skipped as a whole, so
removing it leaves the rate over the remaining records unchanged, while
in SDV completion and in the form-signature scorer the total is summed
before the verified or signed coercion, so a record whose total parses
but whose verified or signed value does not still contributes its total
pages or forms and nothing to the verified or signed count. -/
theorem malformed_record_skipped :
    (∀ (l1 l2 : List Rec) (r : Rec), queryRecordParse r = Option.none → l1 ++ l2 ≠ [] →
       calculate_query_resolution_rate (l1 ++ r :: l2) =
         calculate_query_resolution_rate (l1 ++ l2))
    ∧ (∀ (acc : Int × Int) (record : Rec) (t : Int),
        (if (get2 record "Total Pages" "TotalPages" (.int 0)).truthy
         then (get2 record "Total Pages" "TotalPages" (.int 0)).toInt? else some 0) = some t →
        (if (get3 record "SDV Completed" "SDVCompleted" "Verified Pages" (.int 0)).truthy
         then (get3 record "SDV Completed" "SDVCompleted" "Verified Pages" (.int 0)).toInt?
         else some 0) = Option.none →
        sdvStep acc record = (acc.1 + t, acc.2))
    ∧ (∀ (acc : Int × Int) (record : Rec) (t : Int),
        (if (get2 record "Total Forms" "TotalForms" (.int 1)).truthy
         then (get2 record "Total Forms" "TotalForms" (.int 1)).toInt? else some 0) = some t →
        (if (get3 record "Signed Forms" "SignedForms" "eSigned" (.int 0)).truthy
         then (get3 record "Signed Forms" "SignedForms" "eSigned" (.int 0)).toInt?
         else some 0) = Option.none →
        sigStep acc record = (acc.1 + t, acc.2)) := by
  refine ⟨?_, ?_, ?_⟩
  · intro l1 l2 r hr hne
    unfold calculate_query_resolution_rate
    rw [if_neg (by simp), if_neg hne]
    dsimp only
    rw [List.foldl_append, List.foldl_append, List.foldl_cons,
        show queryStep (List.foldl queryStep (0, 0) l1) r = List.foldl queryStep (0, 0) l1
          from by unfold queryStep; rw [hr]]
  · intro acc record t h1 h2
    simp only [sdvStep]
    rw [h1, h2]
  · intro acc record t h1 h2
    simp only [sigStep]
    rw [h1, h2]

/-- Witness for C6 at a concrete malformed record in each conjunct. -/
theorem malformed_record_skipped_witness :
    queryRecordParse [("Open Queries", Value.str "abc"), ("Closed Queries", Value.str "5")]
        = Option.none
    ∧ calculate_query_resolution_rate
        [[("Open Queries", Value.str "abc"), ("Closed Queries", Value.str "5")],
         [("Open Queries", Value.str "10")]]
      = calculate_query_resolution_rate [[("Open Queries", Value.str "10")]]
    ∧ sdvStep (0, 0) [("Total Pages", Value.int 2), ("SDV Completed", Value.str "x")] = (2, 0)
    ∧ sigStep (0, 0) [("Total Forms", Value.int 3), ("Signed Forms", Value.str "y")] = (3, 0) :=
  ⟨by decide,
   malformed_record_skipped.1 [] [[("Open Queries", Value.str "10")]]
     [("Open Queries", Value.str "abc"), ("Closed Queries", Value.str "5")]
     (by decide) (by decide),
   malformed_record_skipped.2.1 (0, 0)
     [("Total Pages", Value.int 2), ("SDV Completed", Value.str "x")] 2
     (by decide) (by decide),
   malformed_record_skipped.2.2 (0, 0)
     [("Total Forms", Value.int 3), ("Signed Forms", Value.str "y")] 3
     (by decide) (by decide)⟩

/-- C7: `generate_recommendations` returns exactly the entries of the
fixed rule table whose conditions hold, in table order; when no
condition holds it returns exactly the single INFO/Status entry, so the
returned list is never empty. -/
theorem recommendations_spec (risk_level : String)
    (sae mp lab ovd ci : Int) (dqi : ℚ) :
    (generate_recommendations risk_level sae mp lab ovd ci dqi =
       (if ((recommendationTable sae mp lab ovd ci dqi).filter Prod.fst).map Prod.snd = []
        then [statusRec]
        else ((recommendationTable sae mp lab ovd ci dqi).filter Prod.fst).map Prod.snd))
    ∧ generate_recommendations risk_level sae mp lab ovd ci dqi ≠ []
    ∧ (¬ sae > 0 → ¬ lab > 10 → ¬ ovd > 15 → ¬ mp > 20 → ¬ ci > 30 → ¬ dqi < 70 →
        generate_recommendations risk_level sae mp lab ovd ci dqi = [statusRec]) := by
  have hlist : (if sae > 0 then [saeRec sae] else []) ++
      (if lab > 10 then [labRec lab] else []) ++
      (if ovd > 15 then [overdueRec ovd] else []) ++
      (if mp > 20 then [missingRec] else []) ++
      (if ci > 30 then [codingRec ci] else []) ++
      (if dqi < 70 then [dqiRec dqi] else []) =
      ((recommendationTable sae mp lab ovd ci dqi).filter Prod.fst).map Prod.snd := by
    simp only [recommendationTable, List.filter_cons, List.filter_nil, decide_eq_true_eq]
    split_ifs <;> rfl
  have heq : generate_recommendations risk_level sae mp lab ovd ci dqi =
      (if ((recommendationTable sae mp lab ovd ci dqi).filter Prod.fst).map Prod.snd = []
       then [statusRec]
       else ((recommendationTable sae mp lab ovd ci dqi).filter Prod.fst).map Prod.snd) := by
    simp only [generate_recommendations]
    simp only [hlist]
  refine ⟨heq, ?_, ?_⟩
  · rw [heq]
    split_ifs with h
    · simp
    · exact h
  · intro h1 h2 h3 h4 h5 h6
    simp only [generate_recommendations, if_neg h1, if_neg h2, if_neg h3,
      if_neg h4, if_neg h5, if_neg h6]
    simp

/-- Witness for C7 at all-zero metrics with a perfect DQI. -/
theorem recommendations_spec_witness :
    generate_recommendations "Low" 0 0 0 0 0 100 = [statusRec] :=
  (recommendations_spec "Low" 0 0 0 0 0 100).2.2
    (by norm_num) (by norm_num) (by norm_num) (by norm_num) (by norm_num) (by norm_num)

lemma cleanSel_none {issues : List String} {r : Rec} (h : subjectId? r = Option.none) :
    cleanSel issues r = Option.none := by
  unfold cleanSel
  rw [h]

lemma dirtySel_none {issues : List String} {r : Rec} (h : subjectId? r = Option.none) :
    dirtySel issues r = Option.none := by
  unfold dirtySel
  rw [h]

lemma cleanSel_some {issues : List String} {r : Rec} {s : String}
    (h : subjectId? r = some s) :
    cleanSel issues r =
      (if hasOpenQueries r || issues.contains s then Option.none else some s) := by
  unfold cleanSel
  rw [h]

lemma dirtySel_some {issues : List String} {r : Rec} {s : String}
    (h : subjectId? r = some s) :
    dirtySel issues r =
      (if hasOpenQueries r || issues.contains s then some s else Option.none) := by
  unfold dirtySel
  rw [h]

lemma clean_dirty_length (issues : List String) (l : List Rec) :
    (l.filterMap (cleanSel issues)).length + (l.filterMap (dirtySel issues)).length =
      (l.filter (fun r => (subjectId? r).isSome)).length := by
  induction l with
  | nil => rfl
  | cons r t ih =>
    rw [List.filterMap_cons, List.filterMap_cons, List.filter_cons]
    cases h : subjectId? r with
    | none =>
        rw [cleanSel_none h, dirtySel_none h]
        simp only [h, Option.isSome_none, Bool.false_eq_true, if_false]
        exact ih
    | some s =>
        rw [cleanSel_some h, dirtySel_some h]
        simp only [h, Option.isSome_some, if_true]
        cases hc : (hasOpenQueries r || issues.contains s) with
        | false =>
            simp only [Bool.false_eq_true, if_false, List.length_cons]
            omega
        | true =>
            simp only [if_true, List.length_cons]
            omega

/-- C9: in `calculate_clean_patient_status` the returned clean and dirty
counts always sum to the returned total; the counts are exactly the
numbers of records selected clean and dirty; and a record with a
resolvable subject identifier is selected clean when its open-query
count parses to 0 and its identifier is not in the missing-pages set,
and selected dirty when the count parses positive or the identifier is
in the set. -/
theorem clean_patient_partition (edc mpd : List Rec) :
    ((calculate_clean_patient_status edc mpd).clean +
      (calculate_clean_patient_status edc mpd).dirty =
      (calculate_clean_patient_status edc mpd).total)
    ∧ (calculate_clean_patient_status edc mpd).clean =
        (edc.filterMap (cleanSel (subjectsWithIssues mpd))).length
    ∧ (calculate_clean_patient_status edc mpd).dirty =
        (edc.filterMap (dirtySel (subjectsWithIssues mpd))).length
    ∧ (∀ r s, subjectId? r = some s → (openQueriesVal r).toInt? = some 0 →
        (subjectsWithIssues mpd).contains s = false →
        cleanSel (subjectsWithIssues mpd) r = some s)
    ∧ (∀ r s z, subjectId? r = some s → (openQueriesVal r).toInt? = some z → 0 < z →
        dirtySel (subjectsWithIssues mpd) r = some s)
    ∧ (∀ r s, subjectId? r = some s → (subjectsWithIssues mpd).contains s = true →
        dirtySel (subjectsWithIssues mpd) r = some s) := by
  refine ⟨?_, ?_, ?_, ?_, ?_, ?_⟩
  · by_cases h : edc = []
    · subst h; rfl
    · unfold calculate_clean_patient_status
      rw [if_neg h]
  · by_cases h : edc = []
    · subst h; rfl
    · unfold calculate_clean_patient_status
      rw [if_neg h]
  · by_cases h : edc = []
    · subst h; rfl
    · unfold calculate_clean_patient_status
      rw [if_neg h]
  · intro r s hs h0 hc
    have hq : hasOpenQueries r = false := by
      unfold hasOpenQueries
      rw [h0]
      rfl
    rw [cleanSel_some hs, hq, hc]
    rfl
  · intro r s z hs hz hzpos
    have hq : hasOpenQueries r = true := by
      unfold hasOpenQueries
      rw [hz]
      exact decide_eq_true hzpos
    rw [dirtySel_some hs, hq]
    rfl
  · intro r s hs hc
    rw [dirtySel_some hs, hc]
    cases hq : hasOpenQueries r <;> rfl

/-- Witness for C9 at a one-record list with a clean subject. -/
theorem clean_patient_partition_witness :
    ((calculate_clean_patient_status [[("Subject", Value.str "S1")]] []).clean +
      (calculate_clean_patient_status [[("Subject", Value.str "S1")]] []).dirty =
      (calculate_clean_patient_status [[("Subject", Value.str "S1")]] []).total)
    ∧ cleanSel (subjectsWithIssues []) [("Subject", Value.str "S1")] = some "S1" :=
  ⟨(clean_patient_partition [[("Subject", Value.str "S1")]] []).1,
   (clean_patient_partition [[("Subject", Value.str "S1")]] []).2.2.2.1
     [("Subject", Value.str "S1")] "S1" (by decide) (by decide) (by decide)⟩

/-- C10: `calculate_clean_patient_status` excludes every record whose
subject alias chain resolves to no identifier: the returned total is the
number of records with a resolvable identifier, which can be strictly
smaller than the number of input records; and a record whose open-query
value fails integer parsing is treated as having no open queries, hence
selected clean unless its identifier appears in the missing-pages set. -/
theorem clean_patient_excluded_records :
    (∀ edc mpd : List Rec, edc ≠ [] →
      (calculate_clean_patient_status edc mpd).total =
        (edc.filter (fun r => (subjectId? r).isSome)).length
      ∧ (∀ r, subjectId? r = Option.none →
          cleanSel (subjectsWithIssues mpd) r = Option.none ∧
          dirtySel (subjectsWithIssues mpd) r = Option.none)
      ∧ (∀ r s, subjectId? r = some s → (openQueriesVal r).toInt? = Option.none →
          hasOpenQueries r = false ∧
          ((subjectsWithIssues mpd).contains s = false →
            cleanSel (subjectsWithIssues mpd) r = some s)))
    ∧ (calculate_clean_patient_status [[("Site", Value.str "X")]] []).total = 0
    ∧ ([[("Site", Value.str "X")]] : List Rec).length = 1
    ∧ (calculate_clean_patient_status
        [[("Subject", Value.str "S2"), ("Open Queries", Value.str "oops")]] []).clean = 1 := by
  refine ⟨?_, by decide, by decide, by decide⟩
  intro edc mpd hne
  refine ⟨?_, ?_, ?_⟩
  · unfold calculate_clean_patient_status
    rw [if_neg hne]
    exact clean_dirty_length _ _
  · intro r hr
    exact ⟨cleanSel_none hr, dirtySel_none hr⟩
  · intro r s hs hn
    have hq : hasOpenQueries r = false := by
      unfold hasOpenQueries
      rw [hn]
    refine ⟨hq, fun hc => ?_⟩
    rw [cleanSel_some hs, hq, hc]
    rfl

/-- Witness for C10 at a one-record list without a subject identifier. -/
theorem clean_patient_excluded_records_witness :
    (calculate_clean_patient_status [[("Site", Value.str "X")]] []).total =
      (([[("Site", Value.str "X")]] : List Rec).filter
        (fun r => (subjectId? r).isSome)).length :=
  (clean_patient_excluded_records.1 [[("Site", Value.str "X")]] [] (by decide)).1
